import Mathlib

/-!
Verification of the tropoform stack lifecycle driver
(src/tropoform/tropoform.py, version 0.3.6).

The Python module drives AWS CloudFormation: `apply` creates or updates a
stack, `plan` previews changes through a change set, `destroy` deletes a
stack.  The remote service is modelled by small environment records whose
fields hold the results of the successive API calls an operation performs
(one field, or one list entry, per call site).  Each driver operation
becomes a pure function from such an environment to a `Run`: the Python
return value, the list of mutating API calls issued, and the
INFO/WARNING/ERROR log events emitted.  DEBUG-level logging, wall-clock
timestamps, regions, credential profiles and boto3 plumbing are elided;
log events are structured constructors carrying the dynamic parts of the
corresponding f-strings.
-/

namespace Tropoform

/-- Python membership test `needle == haystack[k:k+len(needle)]` at the head:
`take_matches n h` is true iff `n` is an initial segment of `h`. -/
def take_matches : List Char → List Char → Bool
  | [], _ => true
  | _ :: _, [] => false
  | a :: as, b :: bs => a = b && take_matches as bs

/-- Helper for the Python `in` operator on strings: does `needle` occur as a
contiguous run starting at some position of `haystack`? -/
def sub_at_any : List Char → List Char → Bool
  | needle, [] => take_matches needle []
  | needle, c :: cs => take_matches needle (c :: cs) || sub_at_any needle cs

/-- The Python substring test `needle in haystack`. -/
def strContains (haystack needle : String) : Bool :=
  sub_at_any needle.data haystack.data

/-- Python slice comparison `s[-n:] == t`, as used by `_stack_is_complete`
(tropoform.py line 142).  A slice `s[-n:]` yields the whole string when
`len(s) < n`, which is exactly what `List.drop (length - n)` does. -/
def pySuffixEq (s : String) (n : Nat) (t : String) : Bool :=
  s.data.drop (s.data.length - n) = t.data

/-- Python falsiness of an optional string (`if not stack_status`): `None`
and the empty string are falsy. -/
def py_falsy : Option String → Bool
  | none => true
  | some s => s = ""

/-- The status classification performed by `_stack_is_complete`
(tropoform.py lines 130-146), applied to the describe result it fetches:
`none` models a stack that `describe_stacks` reports as nonexistent
(`_get_stack_status` returned `None`).  The source returns `False` for a
falsy status, `True` when the status string ends in `"_COMPLETE"`
(`stack_status[-9:]`) or `"_FAILED"` (`stack_status[-7:]`), and `False`
otherwise. -/
def stack_is_complete : Option String → Bool
  | none => false
  | some stack_status =>
    if stack_status = "" then false
    else pySuffixEq stack_status 9 "_COMPLETE" || pySuffixEq stack_status 7 "_FAILED"

/-- Result of one `describe_stacks` call as seen by `_get_stack_status`:
either the first stack record's `StackStatus`, or a `ClientError` whose
message is inspected for the text `does not exist`. -/
inductive DescribeOutcome where
  | stacks (stackStatus : String)
  | clientError (msg : String)
deriving DecidableEq

/-- `_get_stack_status` (tropoform.py lines 109-127): returns the status of
the first stack, `None` (here `Except.ok none`) when the `ClientError`
message contains `does not exist`, and re-raises any other `ClientError`
(here `Except.error`). -/
def get_stack_status : DescribeOutcome → Except String (Option String)
  | .stacks s => .ok (some s)
  | .clientError msg =>
    if strContains msg "does not exist" then .ok none
    else .error msg

/-- A Python parameter dictionary in insertion order (keys are unique in
real Python dicts; `dict_get` returns the first binding either way). -/
abbrev PyDict := List (String × String)

/-- Python dictionary lookup `d[k]` / `k in d`, returning the first binding
of `k`. -/
def dict_get : PyDict → String → Option String
  | [], _ => none
  | kv :: rest, key => if kv.1 = key then some kv.2 else dict_get rest key

/-- The Python dict merge `{**result, **data}` used by
`_load_parameter_files` (tropoform.py line 217): keys of the left operand
keep their position but take the right operand's value when it also binds
them, and the right operand's remaining keys are appended in order. -/
def dict_merge (a b : PyDict) : PyDict :=
  a.map (fun kv =>
    match dict_get b kv.1 with
    | some v => (kv.1, v)
    | none => kv)
  ++ b.filter (fun kv => (dict_get a kv.1).isNone)

/-- `_load_parameter_files` (tropoform.py lines 197-219), after the
comma-splitting of the CLI string and the YAML parsing of each file have
produced one `PyDict` per file: the empty file list yields `dict()` and
the loop folds `result = {**result, **data}` left to right. -/
def load_parameter_files (files : List PyDict) : PyDict :=
  files.foldl dict_merge []

/-- Python `str.zfill` for the nonnegative strings produced here: left-pad
with the digit 0 up to the requested width (sign handling is irrelevant
because `divmod` of a nonnegative `timedelta.seconds` is nonnegative). -/
def zfill (width : Nat) (s : String) : String :=
  ⟨List.replicate (width - s.data.length) '0' ++ s.data⟩

/-- `_fmt_timedelta` (tropoform.py lines 244-255) applied to
`time_delta.seconds`: `divmod(seconds, 3600)` then `divmod(rem, 60)`,
each part zero-filled to two characters and joined with colons. -/
def fmt_timedelta (total_seconds : Nat) : String :=
  let hours := total_seconds / 3600
  let rem := total_seconds % 3600
  let minutes := rem / 60
  let seconds := rem % 60
  zfill 2 (toString hours) ++ ":" ++ zfill 2 (toString minutes) ++ ":" ++ zfill 2 (toString seconds)

/-- The Python value an operation ends with: an explicit `return True` or
`return False`, falling off the end of the function (Python returns
`None`; `main` maps every non-`True` result to exit code 1), an uncaught
exception, or — a model artifact — an unbounded polling loop whose
environment supplies no further describe results. -/
inductive PyResult where
  | retTrue
  | retFalse
  | retNone
  | raised
  | diverged
deriving DecidableEq

/-- The mutating CloudFormation API calls the driver can issue.  Describe
and validate calls are read-only and are not recorded. -/
inductive ApiCall where
  | createStack
  | updateStack
  | deleteStack
  | createChangeSet
  | deleteChangeSet
deriving DecidableEq

/-- One INFO/WARNING/ERROR log event per `logger` call site of `apply`,
`plan`, `destroy` and the helpers they call, carrying the dynamic parts of
the corresponding f-string (fixed-width padding, timestamps and durations
are elided). -/
inductive Log where
  | currentStatus (stack : String) (st : Option String)
  | creatingStack (stack : String) (n : Nat)
  | exiting
  | notCreated (stack : String)
  | updating (stack : String)
  | noUpdatesWarning (stack : String)
  | notUpdated (stack : String)
  | errorNotComplete
  | pollStatus (st : Option String)
  | failedWarning (stack : String) (st : String) (action : String)
  | reasonReport (stack : String)
  | resourcesDuration (stack : String) (action : String) (n : Nat)
  | outputsHeader
  | outputLine (k v : String)
  | outputNotComplete (stack : String)
  | templateInvalid
  | notYetDeployed (stack : String)
  | templateDumpStart (fmt : String)
  | templateDump (fmt : String)
  | templateDumpEnd (fmt : String)
  | createsCount (stack : String) (n : Nat)
  | planHeader
  | planLine (i : Nat) (action : String) (logicalId : String) (resourceType : String)
  | invalidOutputType (t : String)
  | createCsError (stack : String)
  | noChangesDetected (stack : String)
  | deleteCsError (stack : String)
  | csFailedReason (reason : String)
  | changesCount (stack : String) (n : Nat)
  | changesHeader
  | changeLogLine (i : Nat) (action logicalId resourceId resourceType scope replacement : String)
  | changeSetSaved (stack : String)
  | cantDeleteNow (stack : String) (st : Option String)
  | deletingStack (stack : String) (n : Nat)
  | destroyEnded (stack : String)
  | deleteError
deriving DecidableEq

/-- The observable outcome of one driver operation: its Python result, the
mutating API calls it issued in order, and the log events it emitted in
order. -/
structure Run where
  ret : PyResult
  mutations : List ApiCall
  logs : List Log
deriving DecidableEq

/-- The `output` operation (tropoform.py lines 399-415) as invoked from the
end of `apply`: it re-checks completeness with a fresh describe (`d`); if
the stack is not complete it logs an error and returns, otherwise it logs
the `STACK OUTPUTS:` header and one line per output. -/
def output_logs (d : Option String) (outs : List (String × String)) (stack : String) : List Log :=
  if stack_is_complete d = false then [Log.outputNotComplete stack]
  else Log.outputsHeader :: outs.map (fun kv => Log.outputLine kv.1 kv.2)

/-- Environment of one `apply` invocation: the results of its successive
remote calls.  `describe1` is the initial `_get_stack_status` (line 471);
`describe2` the `_stack_is_complete` guard of the update branch
(line 515); `poll` the statuses seen by the polling loop (lines 562-565),
alternating loop-condition describes and loop-body describes;
`output_describe` the describe inside the final `output` call;
`final_resources` the length of `_get_stack_resources` at the end;
`create_res` and `update_res` the outcomes of `create_stack` and
`update_stack`, an `Except.error` carrying the exception text. -/
structure ApplyEnv where
  describe1 : Option String
  describe2 : Option String
  poll : List (Option String)
  output_describe : Option String
  n_resources : Nat
  final_resources : Nat
  outputs : List (String × String)
  auto_approve : Bool
  response : String
  create_res : Except String Unit
  update_res : Except String Unit

/-- The polling loop of `apply` (lines 562-565):
`while not _stack_is_complete(...)` performs one describe per condition
check, and the body performs another describe whose value is stored in the
`stack_status` variable and logged.  Given the current value of
`stack_status` and the queue of describes, return the final value of
`stack_status` and the poll logs, or `none` when the queue is exhausted
(the loop is unbounded in the source). -/
def apply_poll : Option String → List (Option String) → Option (Option String × List Log)
  | _, [] => none
  | cur, d :: rest =>
    if stack_is_complete d then some (cur, [])
    else
      match rest with
      | [] => none
      | d2 :: rest2 =>
        match apply_poll d2 rest2 with
        | none => none
        | some (fin, ls) => some (fin, Log.pollStatus d2 :: ls)

/-- Shared tail of `apply` (lines 561-585) after the create/update branch
has succeeded: poll to completion, then branch on whether the final
`stack_status` variable contains `FAILED` or `ROLLBACK` (a `None` value
there would raise a `TypeError` in `"FAILED" in stack_status`), and on
success report the resource count with duration and the outputs. -/
def apply_after (stack_name : String) (env : ApplyEnv) (action : String)
    (st1 : Option String) (logs0 : List Log) (muts : List ApiCall) : Run :=
  match apply_poll st1 env.poll with
  | none => { ret := .diverged, mutations := muts, logs := logs0 }
  | some (fin, pollLogs) =>
    let logs1 := logs0 ++ pollLogs
    match fin with
    | none => { ret := .raised, mutations := muts, logs := logs1 }
    | some fs =>
      if strContains fs "FAILED" || strContains fs "ROLLBACK" then
        { ret := .retFalse, mutations := muts,
          logs := logs1 ++ [Log.failedWarning stack_name fs action, Log.reasonReport stack_name] }
      else
        { ret := .retTrue, mutations := muts,
          logs := logs1 ++ Log.resourcesDuration stack_name action env.final_resources ::
            output_logs env.output_describe env.outputs stack_name }

/-- `apply` (tropoform.py lines 440-585).  Branching on the initial status:
`None` takes the create path, a status passing `_stack_is_complete` takes
the update path (where an `update_stack` error whose text contains
`No updates are to be performed` is only a warning), and any other
existing status aborts with `ERROR: Stack not in a complete status`.
Both create/update variants (with and without `RoleARN`) issue the same
logical call, so `role_arn` is not modelled. -/
def apply (stack_name : String) (env : ApplyEnv) : Run :=
  let st1 := env.describe1
  let l0 := [Log.currentStatus stack_name st1]
  match st1 with
  | none =>
    let l1 := l0 ++ [Log.creatingStack stack_name env.n_resources]
    if env.auto_approve = false ∧ env.response.toLower ≠ "yes" then
      { ret := .retFalse, mutations := [], logs := l1 ++ [Log.exiting] }
    else
      match env.create_res with
      | .error _ =>
        { ret := .retFalse, mutations := [.createStack], logs := l1 ++ [Log.notCreated stack_name] }
      | .ok _ => apply_after stack_name env "deployed" st1 l1 [.createStack]
  | some _ =>
    if stack_is_complete env.describe2 then
      let l1 := l0 ++ [Log.updating stack_name]
      if env.auto_approve = false ∧ env.response.toLower ≠ "yes" then
        { ret := .retFalse, mutations := [], logs := l1 ++ [Log.exiting] }
      else
        match env.update_res with
        | .ok _ => apply_after stack_name env "updated" st1 l1 [.updateStack]
        | .error e =>
          if strContains e "No updates are to be performed" then
            apply_after stack_name env "updated" st1
              (l1 ++ [Log.noUpdatesWarning stack_name]) [.updateStack]
          else
            { ret := .retFalse, mutations := [.updateStack],
              logs := l1 ++ [Log.notUpdated stack_name] }
    else
      { ret := .retFalse, mutations := [], logs := l0 ++ [Log.errorNotComplete] }

/-- One `ResourceChange` record of a change-set `Changes` entry, with the
fields `plan` reads (`Scope` is logged through `str(...)`, modelled as an
opaque string). -/
structure ResourceChange where
  action : String
  replacement : String
  physicalResourceId : String
  logicalResourceId : String
  resourceType : String
  scope : String
deriving DecidableEq

/-- One `describe_change_set` result: status, status reason and changes. -/
structure ChangeSetDesc where
  status : String
  statusReason : String
  changes : List ResourceChange
deriving DecidableEq

/-- Environment of one `plan` invocation.  `resources` is the template's
`Resources` section as an ordered list of (logical id, resource `Type`)
pairs; `template_valid` the result of `validate_template`; `describe1` the
describe behind the `_stack_is_complete` test (line 618); `create_cs` the
outcome of `create_change_set`; `cs_descs` the successive
`describe_change_set` results seen by the change-set loop; `delete_res`
the outcome of `delete_change_set`. -/
structure PlanEnv where
  resources : List (String × String)
  template_valid : Bool
  describe1 : Option String
  create_cs : Except String String
  cs_descs : List ChangeSetDesc
  delete_res : Except String Unit

/-- The resource enumeration of `plan`'s text branch (lines 635-639):
`i = 0`, then one log line per resource printing `i + 1`, the literal
`Create`, the logical id and the resource type. -/
def plan_resource_lines : Nat → List (String × String) → List Log
  | _, [] => []
  | i, r :: rest => Log.planLine (i + 1) "Create" r.1 r.2 :: plan_resource_lines (i + 1) rest

/-- One line of the change enumeration (lines 702-715): for actions other
than `Add` and `Remove` the replacement flag and physical resource id are
read from the change, otherwise both print as empty. -/
def change_log_line (i : Nat) (rc : ResourceChange) : Log :=
  let blank := rc.action = "Add" ∨ rc.action = "Remove"
  let repl := if blank then "" else rc.replacement
  let rid := if blank then "" else rc.physicalResourceId
  Log.changeLogLine (i + 1) rc.action rc.logicalResourceId rid rc.resourceType rc.scope repl

/-- The full change enumeration, `for i in range(len(changes))`. -/
def change_log_lines : Nat → List ResourceChange → List Log
  | _, [] => []
  | i, rc :: rest => change_log_line i rc :: change_log_lines (i + 1) rest

/-- The change-set wait loop of `plan` (lines 669-696):
`while change_set.Status != "CREATE_COMPLETE"` returns inside the loop on
`FAILED` and re-describes otherwise, so the loop settles on the first
described status equal to `CREATE_COMPLETE` or `FAILED`; `none` when the
queue is exhausted (the loop is unbounded in the source). -/
def cs_poll : List ChangeSetDesc → Option ChangeSetDesc
  | [] => none
  | c :: rest =>
    if c.status = "CREATE_COMPLETE" then some c
    else if c.status = "FAILED" then some c
    else cs_poll rest

/-- The `FAILED` status reason that `plan` recognises as the no-changes
case (line 673); the apostrophe is written as an escape. -/
def noChangesMsg : String := "The submitted information didn\x27t contain changes"

/-- `plan` (tropoform.py lines 588-727).  An invalid template aborts.  A
stack failing `_stack_is_complete` takes the not-yet-deployed branch:
`yaml` output dumps the template body, `json` output evaluates
`template_dict.to_json()` — an `AttributeError`, since `yaml.load`
produced a plain dict — after logging the start banner, `text` output
enumerates the resources and then falls off the function (Python `None`),
and any other output type errors.  Otherwise a change set is created and
awaited: `FAILED` with the no-changes reason logs, deletes the change set
and returns `True`; `FAILED` otherwise logs the reason, best-effort
deletes and returns `False`; `CREATE_COMPLETE` enumerates the changes and
then deletes the change set unless `delete_change_set` is false, in which
case it logs that the change set is saved. -/
def plan (stack_name : String) (output_type : String) (delete_change_set : Bool)
    (env : PlanEnv) : Run :=
  if env.template_valid = false then
    { ret := .retFalse, mutations := [], logs := [Log.templateInvalid] }
  else if stack_is_complete env.describe1 = false then
    let l0 := [Log.notYetDeployed stack_name]
    if output_type = "yaml" ∨ output_type = "json" then
      if output_type = "yaml" then
        { ret := .retTrue, mutations := [],
          logs := l0 ++ [Log.templateDumpStart output_type, Log.templateDump output_type,
            Log.templateDumpEnd output_type] }
      else
        { ret := .raised, mutations := [], logs := l0 ++ [Log.templateDumpStart output_type] }
    else if output_type = "text" then
      { ret := .retNone, mutations := [],
        logs := l0 ++ Log.createsCount stack_name env.resources.length :: Log.planHeader ::
          plan_resource_lines 0 env.resources }
    else
      { ret := .retFalse, mutations := [], logs := l0 ++ [Log.invalidOutputType output_type] }
  else
    match env.create_cs with
    | .error _ =>
      { ret := .retFalse, mutations := [.createChangeSet], logs := [Log.createCsError stack_name] }
    | .ok _ =>
      match cs_poll env.cs_descs with
      | none => { ret := .diverged, mutations := [.createChangeSet], logs := [] }
      | some c =>
        if c.status = "CREATE_COMPLETE" then
          let l1 := Log.changesCount stack_name c.changes.length :: Log.changesHeader ::
            change_log_lines 0 c.changes
          if delete_change_set then
            match env.delete_res with
            | .ok _ =>
              { ret := .retTrue, mutations := [.createChangeSet, .deleteChangeSet], logs := l1 }
            | .error _ =>
              { ret := .retFalse, mutations := [.createChangeSet, .deleteChangeSet],
                logs := l1 ++ [Log.deleteError] }
          else
            { ret := .retTrue, mutations := [.createChangeSet],
              logs := l1 ++ [Log.changeSetSaved stack_name] }
        else
          if strContains c.statusReason noChangesMsg then
            match env.delete_res with
            | .ok _ =>
              { ret := .retTrue, mutations := [.createChangeSet, .deleteChangeSet],
                logs := [Log.noChangesDetected stack_name] }
            | .error _ =>
              { ret := .retFalse, mutations := [.createChangeSet, .deleteChangeSet],
                logs := [Log.noChangesDetected stack_name, Log.deleteCsError stack_name] }
          else
            { ret := .retFalse, mutations := [.createChangeSet, .deleteChangeSet],
              logs := Log.csFailedReason c.statusReason ::
                match env.delete_res with
                | .ok _ => []
                | .error _ => [Log.deleteCsError stack_name] }

/-- Environment of one `destroy` invocation: `describe1` is the initial
`_get_stack_status` (line 743), `describe2` the `_stack_is_complete` guard
(line 745), `n_resources` the length of `_get_stack_resources`,
`delete_res` the outcome of `delete_stack`, and `poll` the statuses seen
by the polling loop (lines 766-771). -/
structure DestroyEnv where
  describe1 : Option String
  describe2 : Option String
  n_resources : Nat
  auto_approve : Bool
  response : String
  delete_res : Except String Unit
  poll : List (Option String)

/-- The polling loop of `destroy` (lines 766-771): like `apply`'s loop but
with `if not stack_status: break` after the body describe, so a falsy
status (`None` once the stack is gone, or an empty string) ends the loop
immediately with that value in `stack_status`. -/
def destroy_poll : Option String → List (Option String) → Option (Option String × List Log)
  | _, [] => none
  | cur, d :: rest =>
    if stack_is_complete d then some (cur, [])
    else
      match rest with
      | [] => none
      | d2 :: rest2 =>
        if py_falsy d2 then some (d2, [Log.pollStatus d2])
        else
          match destroy_poll d2 rest2 with
          | none => none
          | some (fin, ls) => some (fin, Log.pollStatus d2 :: ls)

/-- `destroy` (tropoform.py lines 730-784).  A stack failing
`_stack_is_complete` aborts with failure before any mutation; otherwise
the resource count is logged, confirmation obtained unless
`auto_approve`, `delete_stack` issued, the loop polled, and finally a
truthy `stack_status` containing `FAILED` or `ROLLBACK` reports the
failure reason and returns `False`, everything else returning `True`. -/
def destroy (stack_name : String) (env : DestroyEnv) : Run :=
  let st1 := env.describe1
  if stack_is_complete env.describe2 = false then
    { ret := .retFalse, mutations := [], logs := [Log.cantDeleteNow stack_name st1] }
  else
    let l0 := [Log.deletingStack stack_name env.n_resources]
    if env.auto_approve = false ∧ env.response.toLower ≠ "yes" then
      { ret := .retFalse, mutations := [], logs := l0 ++ [Log.exiting] }
    else
      match env.delete_res with
      | .error _ => { ret := .retFalse, mutations := [.deleteStack], logs := l0 }
      | .ok _ =>
        match destroy_poll st1 env.poll with
        | none => { ret := .diverged, mutations := [.deleteStack], logs := l0 }
        | some (fin, pollLogs) =>
          let l1 := l0 ++ pollLogs ++ [Log.destroyEnded stack_name]
          if py_falsy fin then { ret := .retTrue, mutations := [.deleteStack], logs := l1 }
          else
            match fin with
            | none => { ret := .retTrue, mutations := [.deleteStack], logs := l1 }
            | some fs =>
              if strContains fs "FAILED" || strContains fs "ROLLBACK" then
                { ret := .retFalse, mutations := [.deleteStack],
                  logs := l1 ++ [Log.failedWarning stack_name fs "deleted",
                    Log.reasonReport stack_name] }
              else { ret := .retTrue, mutations := [.deleteStack], logs := l1 }

/-- Concrete `apply` environment: a stack stably observed in
`ROLLBACK_COMPLETE`, auto-approved, with a succeeding `update_stack`. -/
def applyRollbackEnv : ApplyEnv :=
  { describe1 := some "ROLLBACK_COMPLETE", describe2 := some "ROLLBACK_COMPLETE",
    poll := [some "ROLLBACK_COMPLETE"], output_describe := none,
    n_resources := 1, final_resources := 1, outputs := [],
    auto_approve := true, response := "", create_res := .ok (), update_res := .ok () }

/-- Concrete `apply` environment: a stack stably observed in
`UPDATE_IN_PROGRESS`, auto-approved. -/
def applyInProgressEnv : ApplyEnv :=
  { describe1 := some "UPDATE_IN_PROGRESS", describe2 := some "UPDATE_IN_PROGRESS",
    poll := [], output_describe := none, n_resources := 0, final_resources := 0,
    outputs := [], auto_approve := true, response := "", create_res := .ok (),
    update_res := .ok () }

/-- Concrete `apply` environment: a stack stably observed in
`UPDATE_COMPLETE` whose `update_stack` call raises the no-updates
validation error. -/
def applyNoUpdatesEnv : ApplyEnv :=
  { describe1 := some "UPDATE_COMPLETE", describe2 := some "UPDATE_COMPLETE",
    poll := [some "UPDATE_COMPLETE"], output_describe := some "UPDATE_COMPLETE",
    n_resources := 1, final_resources := 1, outputs := [("UserName", "tropoform_test_user")],
    auto_approve := true, response := "", create_res := .ok (),
    update_res := .error
      "An error occurred (ValidationError) when calling the UpdateStack operation: No updates are to be performed." }

/-- Concrete `plan` environment: a deployed stack whose change-set creation
fails with the no-changes reason, with a succeeding delete. -/
def planNoChangesEnv : PlanEnv :=
  { resources := [("MyUser", "AWS::IAM::User")], template_valid := true,
    describe1 := some "CREATE_COMPLETE", create_cs := .ok "cs-id",
    cs_descs := [{ status := "FAILED", statusReason := noChangesMsg, changes := [] }],
    delete_res := .ok () }

/-- Concrete `plan` environment: a deployed stack whose change set reaches
`CREATE_COMPLETE`, with a succeeding delete. -/
def planRetainEnv : PlanEnv :=
  { resources := [], template_valid := true, describe1 := some "CREATE_COMPLETE",
    create_cs := .ok "cs-id",
    cs_descs := [{ status := "CREATE_COMPLETE", statusReason := "", changes := [] }],
    delete_res := .ok () }

/-- Concrete `plan` environment: an absent stack (describe reports it does
not exist) and a two-resource template. -/
def planAbsentTextEnv : PlanEnv :=
  { resources := [("MyUser", "AWS::IAM::User"), ("MyBucket", "AWS::S3::Bucket")],
    template_valid := true, describe1 := none, create_cs := .ok "unused",
    cs_descs := [], delete_res := .ok () }

/-- Concrete `plan` environment: an existing stack observed in
`UPDATE_IN_PROGRESS` and a one-resource template. -/
def planInProgressEnv : PlanEnv :=
  { resources := [("MyUser", "AWS::IAM::User")], template_valid := true,
    describe1 := some "UPDATE_IN_PROGRESS", create_cs := .ok "unused",
    cs_descs := [], delete_res := .ok () }

/-- Concrete `destroy` environment: a stack stably observed in
`DELETE_IN_PROGRESS`. -/
def destroyInProgressEnv : DestroyEnv :=
  { describe1 := some "DELETE_IN_PROGRESS", describe2 := some "DELETE_IN_PROGRESS",
    n_resources := 1, auto_approve := true, response := "", delete_res := .ok (),
    poll := [] }

/-- The Python slice test `s[-n:] == t` agrees with list-suffix once `n` is
the length of `t`. -/
theorem pySuffixEq_iff (s t : String) (n : Nat) (hn : t.data.length = n) :
    pySuffixEq s n t = true ↔ t.data <:+ s.data := by
  unfold pySuffixEq
  simp only [decide_eq_true_eq]
  constructor
  · intro h
    rw [← h]
    exact List.drop_suffix _ _
  · rintro ⟨pre, hpre⟩
    rw [← hpre, List.length_append, hn, Nat.add_sub_cancel, List.drop_left]

/-- C2: Status classification is a total function on status strings (the
classifiers `_stack_is_complete` and `_get_stack_status` are total Lean
functions): any status string ending in `_COMPLETE` or `_FAILED`
classifies as complete; a describe `ClientError` whose message contains
`does not exist` classifies as absent (status `none`, which is not
complete); every other status string classifies as not complete. -/
theorem status_classification_total :
    (∀ s : String, "_COMPLETE".data <:+ s.data ∨ "_FAILED".data <:+ s.data →
      stack_is_complete (some s) = true) ∧
    (∀ msg : String, strContains msg "does not exist" = true →
      get_stack_status (DescribeOutcome.clientError msg) = Except.ok none) ∧
    (∀ s : String, ¬ "_COMPLETE".data <:+ s.data → ¬ "_FAILED".data <:+ s.data →
      stack_is_complete (some s) = false) ∧
    stack_is_complete none = false := by
  have hC : ("_COMPLETE".data).length = 9 := rfl
  have hF : ("_FAILED".data).length = 7 := rfl
  refine ⟨?_, ?_, ?_, rfl⟩
  · intro s h
    have hs : s ≠ "" := by
      rintro rfl
      rcases h with ⟨pre, hpre⟩ | ⟨pre, hpre⟩ <;>
        rw [show ("".data) = ([] : List Char) from rfl] at hpre <;>
        exact absurd (List.append_eq_nil.mp hpre).2 (by decide)
    simp only [stack_is_complete, if_neg hs]
    rcases h with h | h
    · simp [(pySuffixEq_iff s "_COMPLETE" 9 hC).mpr h]
    · simp [(pySuffixEq_iff s "_FAILED" 7 hF).mpr h]
  · intro msg h
    simp only [get_stack_status]
    rw [if_pos h]
  · intro s hnC hnF
    simp only [stack_is_complete]
    by_cases hs : s = ""
    · simp [hs]
    · rw [if_neg hs]
      have h1 : pySuffixEq s 9 "_COMPLETE" = false := by
        cases hx : pySuffixEq s 9 "_COMPLETE"
        · rfl
        · exact absurd ((pySuffixEq_iff s "_COMPLETE" 9 hC).mp hx) hnC
      have h2 : pySuffixEq s 7 "_FAILED" = false := by
        cases hx : pySuffixEq s 7 "_FAILED"
        · rfl
        · exact absurd ((pySuffixEq_iff s "_FAILED" 7 hF).mp hx) hnF
      simp [h1, h2]

/-- Witness for C2 at concrete statuses: `CREATE_COMPLETE` is complete,
a does-not-exist describe error is absent, `CREATE_IN_PROGRESS` is not
complete, and the absent status is not complete. -/
theorem status_classification_witness :
    stack_is_complete (some "CREATE_COMPLETE") = true ∧
    get_stack_status (DescribeOutcome.clientError "Stack with id demo does not exist") =
      Except.ok none ∧
    stack_is_complete (some "CREATE_IN_PROGRESS") = false ∧
    stack_is_complete none = false := by
  refine ⟨status_classification_total.1 "CREATE_COMPLETE" (Or.inl ⟨"CREATE".data, by decide⟩),
    status_classification_total.2.1 _ (by decide),
    status_classification_total.2.2.1 "CREATE_IN_PROGRESS" ?_ ?_,
    status_classification_total.2.2.2⟩
  · intro h
    exact absurd ((pySuffixEq_iff "CREATE_IN_PROGRESS" "_COMPLETE" 9 rfl).mpr h) (by decide)
  · intro h
    exact absurd ((pySuffixEq_iff "CREATE_IN_PROGRESS" "_FAILED" 7 rfl).mpr h) (by decide)

/-- Lookup across a concatenation prefers the left dictionary. -/
theorem dict_get_append (a b : PyDict) (k : String) :
    dict_get (a ++ b) k =
      match dict_get a k with
      | some v => some v
      | none => dict_get b k := by
  induction a with
  | nil => simp [dict_get]
  | cons kv rest ih =>
    by_cases h : kv.1 = k <;> simp [dict_get, h, ih]

/-- Lookup in the overridden copy of the left merge operand: present keys
keep their position and take the right operand's value when it has one. -/
theorem dict_get_map_override (a b : PyDict) (k : String) :
    dict_get (a.map fun kv =>
        match dict_get b kv.1 with
        | some v => (kv.1, v)
        | none => kv) k =
      match dict_get a k with
      | some v =>
        match dict_get b k with
        | some w => some w
        | none => some v
      | none => none := by
  induction a with
  | nil => simp [dict_get]
  | cons kv rest ih =>
    by_cases h : kv.1 = k
    · subst h
      rcases hb : dict_get b kv.1 with _ | w <;> simp [dict_get, hb]
    · rcases hb : dict_get b kv.1 with _ | w <;> simp [dict_get, h, hb, ih]

/-- Lookup in the filtered copy of the right merge operand: only keys
absent from the left operand survive. -/
theorem dict_get_filter_fresh (a b : PyDict) (k : String) :
    dict_get (b.filter fun kv => (dict_get a kv.1).isNone) k =
      match dict_get a k with
      | some _ => none
      | none => dict_get b k := by
  induction b with
  | nil => rcases dict_get a k with _ | v <;> simp [dict_get]
  | cons kv rest ih =>
    by_cases h : kv.1 = k
    · subst h
      rcases ha : dict_get a kv.1 with _ | v <;> simp [dict_get, ha, ih]
    · rcases ha : dict_get a kv.1 with _ | v <;> simp [dict_get, h, ha, ih]

/-- The Python merge `{**a, **b}` looks up in `b` first, then in `a`. -/
theorem dict_get_merge (a b : PyDict) (k : String) :
    dict_get (dict_merge a b) k =
      match dict_get b k with
      | some v => some v
      | none => dict_get a k := by
  unfold dict_merge
  rw [dict_get_append, dict_get_map_override, dict_get_filter_fresh]
  rcases dict_get a k with _ | v <;> rcases dict_get b k with _ | w <;> simp

/-- C8: loading parameter files folds their mappings left to right with
later files overriding earlier ones on key collision; merging
`{"A": "1"}` then `{"A": "2", "B": "3"}` yields exactly
`{"A": "2", "B": "3"}`, and an empty sequence yields the empty mapping. -/
theorem parameter_files_merge_left_to_right :
    (∀ (files : List PyDict) (d : PyDict) (k : String),
      dict_get (load_parameter_files (files ++ [d])) k =
        match dict_get d k with
        | some v => some v
        | none => dict_get (load_parameter_files files) k) ∧
    load_parameter_files [[("A", "1")], [("A", "2"), ("B", "3")]] = [("A", "2"), ("B", "3")] ∧
    load_parameter_files [] = [] := by
  refine ⟨?_, by decide, rfl⟩
  intro files d k
  unfold load_parameter_files
  rw [List.foldl_append, List.foldl_cons, List.foldl_nil]
  exact dict_get_merge _ d k

/-- Witness for C8: a later file overrides an earlier binding of `A`. -/
theorem parameter_files_merge_witness :
    dict_get (load_parameter_files ([[("A", "1")]] ++ [[("A", "2"), ("B", "3")]])) "A" =
      some "2" := by
  rw [parameter_files_merge_left_to_right.1 [[("A", "1")]] [("A", "2"), ("B", "3")] "A"]
  decide

/-- C9: the duration formatter is a function (hence deterministic) of the
`timedelta.seconds` value and produces zero-padded two-digit fields
separated by colons: 60 seconds formats as `00:01:00` and 3661 seconds as
`01:01:01`. -/
theorem fmt_timedelta_zero_padded :
    fmt_timedelta 60 = "00:01:00" ∧ fmt_timedelta 3661 = "01:01:01" := by
  constructor <;> rfl

/-- Counterexample to C1 as stated: `ROLLBACK_COMPLETE` is a
terminal-failure status in the claim's sense (it contains `ROLLBACK`),
yet it passes `_stack_is_complete` (it ends in `_COMPLETE`), so `apply`
takes the update branch and issues `update_stack` instead of aborting
without a mutating call. -/
theorem apply_rollback_complete_issues_update :
    strContains "ROLLBACK_COMPLETE" "ROLLBACK" = true ∧
    ApiCall.updateStack ∈ (apply "demo" applyRollbackEnv).mutations ∧
    (apply "demo" applyRollbackEnv).ret = .retFalse := by decide

/-- C1 amended: for every stack whose observed status exists but fails the
code's completeness test (it does not end in `_COMPLETE` or `_FAILED` —
the in-progress case), `apply` aborts immediately, issues no mutating
call, and returns failure.  Terminal-failure statuses that do end in
`_FAILED` or `_COMPLETE` instead take the update branch. -/
theorem apply_in_progress_aborts_without_mutation (stack_name s : String) (env : ApplyEnv)
    (h1 : env.describe1 = some s)
    (h2 : stack_is_complete env.describe2 = false) :
    (apply stack_name env).ret = .retFalse ∧ (apply stack_name env).mutations = [] := by
  constructor <;> simp [apply, h1, h2]

/-- Witness for the amended C1 at a stack stably in `UPDATE_IN_PROGRESS`. -/
theorem apply_in_progress_aborts_witness :
    (apply "demo" applyInProgressEnv).ret = .retFalse ∧
    (apply "demo" applyInProgressEnv).mutations = [] :=
  apply_in_progress_aborts_without_mutation "demo" "UPDATE_IN_PROGRESS" applyInProgressEnv
    (by decide) (by decide)

/-- The polling loop of `apply` performs zero iterations when the first
loop-condition describe already reports a complete stack. -/
theorem apply_poll_exit (cur d : Option String) (rest : List (Option String))
    (h : stack_is_complete d = true) :
    apply_poll cur (d :: rest) = some (cur, []) := by
  unfold apply_poll
  rw [if_pos h]

/-- Counterexample to C5 as stated: when `update_stack` reports that no
updates are to be performed, `apply` keeps `action = "updated"` (there is
no NONE action) and still reports the resource count with duration and
the outputs before returning success, contrary to the claim that these
reports are skipped. -/
theorem apply_no_updates_reports_cex :
    (apply "demo" applyNoUpdatesEnv).ret = .retTrue ∧
    Log.resourcesDuration "demo" "updated" 1 ∈ (apply "demo" applyNoUpdatesEnv).logs ∧
    Log.outputsHeader ∈ (apply "demo" applyNoUpdatesEnv).logs := by decide

/-- C5 amended: against a terminal-success stack whose `update_stack` call
raises the no-updates validation error, `apply` treats the error as a
non-fatal warning, performs no polling iteration (the first loop check
already sees a complete stack), reports the resource count with duration
and the outputs, and returns success; the only mutating call is the
failed `update_stack` itself. -/
theorem apply_no_updates_nonfatal_success (stack_name s e : String) (env : ApplyEnv)
    (d : Option String) (rest : List (Option String))
    (h1 : env.describe1 = some s)
    (h2 : stack_is_complete env.describe2 = true)
    (ha : env.auto_approve = true)
    (hu : env.update_res = .error e)
    (he : strContains e "No updates are to be performed" = true)
    (hp : env.poll = d :: rest)
    (hd : stack_is_complete d = true)
    (hf : strContains s "FAILED" = false)
    (hr : strContains s "ROLLBACK" = false)
    (ho : stack_is_complete env.output_describe = true) :
    (apply stack_name env).ret = .retTrue ∧
    (apply stack_name env).mutations = [ApiCall.updateStack] ∧
    Log.noUpdatesWarning stack_name ∈ (apply stack_name env).logs ∧
    Log.resourcesDuration stack_name "updated" env.final_resources ∈ (apply stack_name env).logs ∧
    Log.outputsHeader ∈ (apply stack_name env).logs ∧
    ∀ st : Option String, Log.pollStatus st ∉ (apply stack_name env).logs := by
  have hpoll : apply_poll (some s) (d :: rest) = some (some s, []) :=
    apply_poll_exit (some s) d rest hd
  refine ⟨?_, ?_, ?_, ?_, ?_, fun st => ?_⟩ <;>
    simp [apply, apply_after, output_logs, h1, h2, ha, hu, he, hp, hpoll, hf, hr, ho]

/-- Witness for the amended C5 at a stack stably in `UPDATE_COMPLETE`. -/
theorem apply_no_updates_nonfatal_success_witness :
    (apply "demo" applyNoUpdatesEnv).mutations = [ApiCall.updateStack] ∧
    Log.noUpdatesWarning "demo" ∈ (apply "demo" applyNoUpdatesEnv).logs :=
  ⟨(apply_no_updates_nonfatal_success "demo" "UPDATE_COMPLETE"
      "An error occurred (ValidationError) when calling the UpdateStack operation: No updates are to be performed."
      applyNoUpdatesEnv (some "UPDATE_COMPLETE") [] rfl (by decide) rfl
      rfl (by decide) rfl (by decide) (by decide) (by decide) (by decide)).2.1,
   (apply_no_updates_nonfatal_success "demo" "UPDATE_COMPLETE"
      "An error occurred (ValidationError) when calling the UpdateStack operation: No updates are to be performed."
      applyNoUpdatesEnv (some "UPDATE_COMPLETE") [] rfl (by decide) rfl
      rfl (by decide) rfl (by decide) (by decide) (by decide) (by decide)).2.2.1⟩

/-- C3: against an absent stack with text output, `plan` enumerates every
template resource exactly once, numbered from 1, with action `Create`,
logical id and resource type — but then falls off the function instead of
returning `True`: Python yields `None` and `main` maps that to exit
code 1, so the operation does not return success.  This theorem evaluates
the model at the failing input. -/
theorem plan_text_absent_enumeration_returns_none :
    (plan "sampleStack" "text" true planAbsentTextEnv).logs =
      [Log.notYetDeployed "sampleStack", Log.createsCount "sampleStack" 2, Log.planHeader,
        Log.planLine 1 "Create" "MyUser" "AWS::IAM::User",
        Log.planLine 2 "Create" "MyBucket" "AWS::S3::Bucket"] ∧
    (plan "sampleStack" "text" true planAbsentTextEnv).mutations = [] ∧
    (plan "sampleStack" "text" true planAbsentTextEnv).ret = .retNone := by decide

/-- C4: in every run of `plan` whose change-set wait settles on status
`FAILED` with a reason containing the no-changes text, `plan` logs the
no-changes message for the stack, issues the `delete_change_set` call,
and — the delete succeeding — returns success. -/
theorem plan_no_changes_success (stack_name output_type : String) (flag : Bool)
    (env : PlanEnv) (cid : String) (c : ChangeSetDesc)
    (hv : env.template_valid = true)
    (hd : stack_is_complete env.describe1 = true)
    (hc : env.create_cs = .ok cid)
    (hp : cs_poll env.cs_descs = some c)
    (hst : c.status = "FAILED")
    (hr : strContains c.statusReason noChangesMsg = true)
    (hdel : env.delete_res = .ok ()) :
    (plan stack_name output_type flag env).ret = .retTrue ∧
    Log.noChangesDetected stack_name ∈ (plan stack_name output_type flag env).logs ∧
    ApiCall.deleteChangeSet ∈ (plan stack_name output_type flag env).mutations := by
  refine ⟨?_, ?_, ?_⟩ <;> simp [plan, hv, hd, hc, hp, hst, hr, hdel]

/-- Witness for C4 at a concrete deployed stack whose change set fails with
the no-changes reason. -/
theorem plan_no_changes_success_witness :
    (plan "sampleTropoformStack" "text" true planNoChangesEnv).ret = .retTrue ∧
    Log.noChangesDetected "sampleTropoformStack" ∈
      (plan "sampleTropoformStack" "text" true planNoChangesEnv).logs ∧
    ApiCall.deleteChangeSet ∈
      (plan "sampleTropoformStack" "text" true planNoChangesEnv).mutations :=
  plan_no_changes_success "sampleTropoformStack" "text" true planNoChangesEnv "cs-id"
    { status := "FAILED", statusReason := noChangesMsg, changes := [] }
    rfl (by decide) rfl (by decide) rfl (by decide) rfl

/-- Counterexample to C7 as stated: on the `FAILED` no-changes path the
change set is deleted even though the caller requested retention
(`delete_change_set = False`), and no saved-change-set message is
logged. -/
theorem plan_failed_deletes_despite_retention :
    ApiCall.deleteChangeSet ∈ (plan "demo" "text" false planNoChangesEnv).mutations ∧
    Log.changeSetSaved "demo" ∉ (plan "demo" "text" false planNoChangesEnv).logs ∧
    (plan "demo" "text" false planNoChangesEnv).ret = .retTrue := by decide

/-- C7 amended: in every execution of `plan` that reaches change-set
interpretation, on `CREATE_COMPLETE` the change set is deleted unless the
caller requested retention, in which case it is kept and its name
reported; on `FAILED` (both the no-changes and the other-reason paths)
the delete call is always issued, regardless of the retention flag. -/
theorem plan_change_set_deletion_policy (stack_name output_type : String) (flag : Bool)
    (env : PlanEnv) (cid : String) (c : ChangeSetDesc)
    (hv : env.template_valid = true)
    (hd : stack_is_complete env.describe1 = true)
    (hc : env.create_cs = .ok cid)
    (hp : cs_poll env.cs_descs = some c) :
    (c.status = "CREATE_COMPLETE" →
      (flag = true → ApiCall.deleteChangeSet ∈ (plan stack_name output_type flag env).mutations) ∧
      (flag = false → ApiCall.deleteChangeSet ∉ (plan stack_name output_type flag env).mutations ∧
        Log.changeSetSaved stack_name ∈ (plan stack_name output_type flag env).logs)) ∧
    (c.status = "FAILED" →
      ApiCall.deleteChangeSet ∈ (plan stack_name output_type flag env).mutations) := by
  constructor
  · intro hst
    constructor
    · intro hflag
      rcases hdel : env.delete_res with e | u <;>
        simp [plan, hv, hd, hc, hp, hst, hflag, hdel]
    · intro hflag
      constructor <;> simp [plan, hv, hd, hc, hp, hst, hflag]
  · intro hst
    rcases hdel : env.delete_res with e | u <;>
      by_cases hr : strContains c.statusReason noChangesMsg = true <;>
        simp [plan, hv, hd, hc, hp, hst, hdel, hr]

/-- Witness for the amended C7: retention honoured on the
`CREATE_COMPLETE` path. -/
theorem plan_change_set_deletion_policy_witness :
    ApiCall.deleteChangeSet ∉ (plan "demo" "text" false planRetainEnv).mutations ∧
    Log.changeSetSaved "demo" ∈ (plan "demo" "text" false planRetainEnv).logs :=
  ((plan_change_set_deletion_policy "demo" "text" false planRetainEnv "cs-id"
      { status := "CREATE_COMPLETE", statusReason := "", changes := [] }
      rfl (by decide) rfl (by decide)).1 rfl).2 rfl

/-- C6: for every stack whose observed status fails the completeness test
(in-progress or absent), `destroy` issues no mutating call (in particular
no `delete_stack`) and returns failure. -/
theorem destroy_not_complete_no_mutations (stack_name : String) (env : DestroyEnv)
    (h : stack_is_complete env.describe2 = false) :
    (destroy stack_name env).ret = .retFalse ∧ (destroy stack_name env).mutations = [] := by
  constructor <;> simp [destroy, h]

/-- Witness for C6 at a stack stably in `DELETE_IN_PROGRESS`. -/
theorem destroy_not_complete_witness :
    (destroy "demo" destroyInProgressEnv).ret = .retFalse ∧
    (destroy "demo" destroyInProgressEnv).mutations = [] :=
  destroy_not_complete_no_mutations "demo" destroyInProgressEnv (by decide)

/-- C10: an existing stack observed in `UPDATE_IN_PROGRESS` fails the
completeness test, so `plan` takes the not-yet-deployed branch — it
behaves exactly as against an absent stack and never creates a change
set: text output enumerates the template resources as `Create` actions
and yaml output dumps the template; json output, however, raises
(`template_dict.to_json()` on the plain dict produced by `yaml.load`)
right after the start banner instead of dumping the template. -/
theorem plan_in_progress_not_deployed_branch :
    stack_is_complete (some "UPDATE_IN_PROGRESS") = false ∧
    plan "demo" "yaml" true planInProgressEnv =
      plan "demo" "yaml" true { planInProgressEnv with describe1 := none } ∧
    plan "demo" "text" true planInProgressEnv =
      plan "demo" "text" true { planInProgressEnv with describe1 := none } ∧
    plan "demo" "json" true planInProgressEnv =
      plan "demo" "json" true { planInProgressEnv with describe1 := none } ∧
    ApiCall.createChangeSet ∉ (plan "demo" "yaml" true planInProgressEnv).mutations ∧
    ApiCall.createChangeSet ∉ (plan "demo" "text" true planInProgressEnv).mutations ∧
    ApiCall.createChangeSet ∉ (plan "demo" "json" true planInProgressEnv).mutations ∧
    (plan "demo" "yaml" true planInProgressEnv).logs =
      [Log.notYetDeployed "demo", Log.templateDumpStart "yaml", Log.templateDump "yaml",
        Log.templateDumpEnd "yaml"] ∧
    (plan "demo" "text" true planInProgressEnv).logs =
      [Log.notYetDeployed "demo", Log.createsCount "demo" 1, Log.planHeader,
        Log.planLine 1 "Create" "MyUser" "AWS::IAM::User"] ∧
    (plan "demo" "json" true planInProgressEnv).ret = .raised := by decide

end Tropoform
